import Mathlib

/-!
Shallow embedding of `src/runtime/errors.rs` (the error-classification layer):
per-subsystem domain classifiers and the classification registry
`get_error_class_name`.

Modelling conventions:
- Rust `&'static str` class tags are `String`.
- A classifier that can diverge (a `todo!()`, an `unreachable!()`, or an
  `Option::unwrap` on `None`) returns `ClassResult.panicked` on that path;
  all other paths return `ClassResult.tag s`.
- The registry returns `RegistryResult`: a tag, `unclassified` (Rust `None`),
  or `panicked` when a domain classifier diverges.
- The type-erased `AnyError` is a pair of an optional custom class (the
  custom/resource-supplied classification hook, modelled from the spec, see
  below) and a concrete error, one constructor per type the registry probes.
- Third-party error types (std `io::Error`, `serde_json`, `nix`, `dlopen2`,
  `notify`, `regex`, `url`) are embedded with exactly the variants the
  classifiers in `src/runtime/errors.rs` distinguish; a catch-all
  constructor stands for the remaining variants wherever the Rust match has
  a wildcard arm or the Rust enum is non-exhaustive.
- The registry is modelled on a unix build (the `#[cfg(unix)]` nix arm is
  present).
-/

/-- Outcome of one domain classifier: a class tag, or divergence
(`todo!()` / `unreachable!()` / `unwrap` on `None`). -/
inductive ClassResult where
  | tag (s : String)
  | panicked
deriving DecidableEq, Repr

/-- Outcome of the classification registry `get_error_class_name`:
`tag s` models `Some(s)`, `unclassified` models `None`, `panicked` models a
panic inside a domain classifier. -/
inductive RegistryResult where
  | tag (s : String)
  | unclassified
  | panicked
deriving DecidableEq, Repr

/-- The kind of a std-library I/O error, as `src/runtime/errors.rs`
distinguishes them: the eighteen kinds its match names, plus
`nonExhaustive kindStr` for every other kind (the Rust enum is
non-exhaustive), carrying the kind's Display string used by the residual
textual match. -/
inductive IoErrorKind where
  | NotFound
  | PermissionDenied
  | ConnectionRefused
  | ConnectionReset
  | ConnectionAborted
  | NotConnected
  | AddrInUse
  | AddrNotAvailable
  | BrokenPipe
  | AlreadyExists
  | InvalidInput
  | InvalidData
  | TimedOut
  | Interrupted
  | WriteZero
  | UnexpectedEof
  | Other
  | WouldBlock
  | nonExhaustive (kindStr : String)
deriving DecidableEq, Repr

/-- A std-library I/O error; the classifier only ever inspects its kind. -/
structure IoError where
  kind : IoErrorKind
deriving DecidableEq, Repr

/-- Embeds `get_io_error_class` (src/runtime/errors.rs lines 61-95). -/
def get_io_error_class (error : IoError) : String :=
  match error.kind with
  | .NotFound => "NotFound"
  | .PermissionDenied => "PermissionDenied"
  | .ConnectionRefused => "ConnectionRefused"
  | .ConnectionReset => "ConnectionReset"
  | .ConnectionAborted => "ConnectionAborted"
  | .NotConnected => "NotConnected"
  | .AddrInUse => "AddrInUse"
  | .AddrNotAvailable => "AddrNotAvailable"
  | .BrokenPipe => "BrokenPipe"
  | .AlreadyExists => "AlreadyExists"
  | .InvalidInput => "TypeError"
  | .InvalidData => "InvalidData"
  | .TimedOut => "TimedOut"
  | .Interrupted => "Interrupted"
  | .WriteZero => "WriteZero"
  | .UnexpectedEof => "UnexpectedEof"
  | .Other => "Error"
  | .WouldBlock => "WouldBlock"
  | .nonExhaustive kindStr =>
    match kindStr with
    | "FilesystemLoop" => "FilesystemLoop"
    | "IsADirectory" => "IsADirectory"
    | "NetworkUnreachable" => "NetworkUnreachable"
    | "NotADirectory" => "NotADirectory"
    | _ => "Error"

/-- The I/O error produced by converting a `deno_core::Canceled` value
(`let io_err: io::Error = e.to_owned().into()`): deno_core's From impl
builds an I/O error of kind Interrupted. -/
def canceledIoError : IoError := ⟨.Interrupted⟩

/-- Embeds `std::env::VarError`. -/
inductive VarError where
  | NotPresent
  | NotUnicode
deriving DecidableEq, Repr

/-- Embeds `get_env_var_error_class` (lines 53-59). -/
def get_env_var_error_class (error : VarError) : String :=
  match error with
  | .NotPresent => "NotFound"
  | .NotUnicode => "InvalidData"

/-- Embeds `dlopen2::Error`. -/
inductive DlopenError where
  | NullCharacter
  | OpeningLibraryError (e : IoError)
  | SymbolGettingError (e : IoError)
  | AddrNotMatchingDll (e : IoError)
  | NullSymbol
deriving DecidableEq, Repr

/-- Embeds `get_dlopen_error_class` (lines 42-51). -/
def get_dlopen_error_class (error : DlopenError) : String :=
  match error with
  | .NullCharacter => "InvalidData"
  | .OpeningLibraryError e => get_io_error_class e
  | .SymbolGettingError e => get_io_error_class e
  | .AddrNotMatchingDll e => get_io_error_class e
  | .NullSymbol => "NotFound"

/-- Embeds `notify::ErrorKind`; the classifier only inspects `error.kind`. -/
inductive NotifyError where
  | Generic
  | Io (e : IoError)
  | PathNotFound
  | WatchNotFound
  | InvalidConfig
  | MaxFilesWatch
deriving DecidableEq, Repr

/-- Embeds `get_notify_error_class` (lines 103-113). -/
def get_notify_error_class (error : NotifyError) : String :=
  match error with
  | .Generic => "Error"
  | .Io e => get_io_error_class e
  | .PathNotFound => "NotFound"
  | .WatchNotFound => "NotFound"
  | .InvalidConfig => "InvalidData"
  | .MaxFilesWatch => "Error"

/-- Embeds `regex::Error`: the two matched variants, plus a catch-all for
the wildcard arm (the Rust enum is non-exhaustive). -/
inductive RegexError where
  | Syntax
  | CompiledTooBig
  | otherVariant
deriving DecidableEq, Repr

/-- Embeds `get_regex_error_class` (lines 115-122). -/
def get_regex_error_class (error : RegexError) : String :=
  match error with
  | .Syntax => "SyntaxError"
  | .CompiledTooBig => "RangeError"
  | .otherVariant => "Error"

/-- Embeds a `serde_json` error by its `classify()` category. In
serde_json an Io-category error is always built from an I/O error and
`source()` returns it, so the Io constructor carries that I/O error
directly (the `unwrap` on lines 129-133 cannot fire). -/
inductive SerdeJsonError where
  | Io (source : IoError)
  | Syntax
  | Data
  | Eof
deriving DecidableEq, Repr

/-- Embeds `get_serde_json_error_class` (lines 124-138). -/
def get_serde_json_error_class (error : SerdeJsonError) : String :=
  match error with
  | .Io e => get_io_error_class e
  | .Syntax => "SyntaxError"
  | .Data => "InvalidData"
  | .Eof => "UnexpectedEof"

/-- Embeds `url::ParseError`: a representative sample of its variants plus a
catch-all; the classifier ignores the variant. -/
inductive UrlParseError where
  | EmptyHost
  | InvalidPort
  | InvalidIpv4Address
  | InvalidIpv6Address
  | InvalidDomainCharacter
  | RelativeUrlWithoutBase
  | otherVariant
deriving DecidableEq, Repr

/-- Embeds `get_url_parse_error_class` (lines 140-142): constant. -/
def get_url_parse_error_class (_error : UrlParseError) : String :=
  "URIError"

/-- Embeds `deno_core::ModuleResolutionError` (invalid URL, invalid base
URL, import prefix missing). -/
inductive ModuleResolutionError where
  | InvalidUrl (e : UrlParseError)
  | InvalidBaseUrl (e : UrlParseError)
  | ImportPrefixMissing
deriving DecidableEq, Repr

/-- Embeds `get_module_resolution_error_class` (lines 97-101): constant. -/
def get_module_resolution_error_class (_ : ModuleResolutionError) : String :=
  "URIError"

/-- Embeds `nix::Error` (an errno enum): the variants the classifier names,
plus `otherErrno` for the wildcard arm over the remaining errno values. -/
inductive NixError where
  | ECHILD
  | EINVAL
  | ENOENT
  | ENOTTY
  | EPERM
  | ESRCH
  | ELOOP
  | ENOTDIR
  | ENETUNREACH
  | EISDIR
  | UnknownErrno
  | ENOTSUP
  | otherErrno (n : Nat)
deriving DecidableEq, Repr

/-- Embeds `get_nix_error_class` (lines 158-175); the `ENOTSUP` arm is
`unreachable!()`, modelled as `panicked`. -/
def get_nix_error_class (error : NixError) : ClassResult :=
  match error with
  | .ECHILD => .tag "NotFound"
  | .EINVAL => .tag "TypeError"
  | .ENOENT => .tag "NotFound"
  | .ENOTTY => .tag "BadResource"
  | .EPERM => .tag "PermissionDenied"
  | .ESRCH => .tag "NotFound"
  | .ELOOP => .tag "FilesystemLoop"
  | .ENOTDIR => .tag "NotADirectory"
  | .ENETUNREACH => .tag "NetworkUnreachable"
  | .EISDIR => .tag "IsADirectory"
  | .UnknownErrno => .tag "Error"
  | .ENOTSUP => .panicked
  | .otherErrno _ => .tag "Error"

/-- Embeds `deno_web::WebError`. -/
inductive WebError where
  | Base64Decode
  | InvalidEncodingLabel
  | BufferTooLong
  | ValueTooLarge
  | BufferTooSmall
  | DataInvalid
  | DataError
deriving DecidableEq, Repr

/-- Embeds `get_web_error_class` (lines 177-187). -/
def get_web_error_class (e : WebError) : String :=
  match e with
  | .Base64Decode => "DOMExceptionInvalidCharacterError"
  | .InvalidEncodingLabel => "RangeError"
  | .BufferTooLong => "TypeError"
  | .ValueTooLarge => "RangeError"
  | .BufferTooSmall => "RangeError"
  | .DataInvalid => "TypeError"
  | .DataError => "Error"

/-- Embeds `deno_web::CompressionError`. -/
inductive CompressionError where
  | UnsupportedFormat
  | ResourceClosed
  | IoTypeError
  | Io (e : IoError)
deriving DecidableEq, Repr

/-- Embeds `get_web_compression_error_class` (lines 189-196). -/
def get_web_compression_error_class (e : CompressionError) : String :=
  match e with
  | .UnsupportedFormat => "TypeError"
  | .ResourceClosed => "TypeError"
  | .IoTypeError => "TypeError"
  | .Io e => get_io_error_class e

/-- Embeds `deno_web::StreamResourceError`. -/
inductive StreamResourceError where
  | Canceled
  | Js
deriving DecidableEq, Repr

/-- Embeds `get_web_stream_resource_error_class` (lines 211-221); the
Canceled arm converts the cancellation to an I/O error and delegates. -/
def get_web_stream_resource_error_class (e : StreamResourceError) : String :=
  match e with
  | .Canceled => get_io_error_class canceledIoError
  | .Js => "TypeError"

/-- Embeds `deno_web::BlobError`. -/
inductive BlobError where
  | BlobPartNotFound
  | SizeLargerThanBlobPart
  | BlobURLsNotSupported
  | Url
deriving DecidableEq, Repr

/-- Embeds `get_web_blob_error_class` (lines 223-230). -/
def get_web_blob_error_class (e : BlobError) : String :=
  match e with
  | .BlobPartNotFound => "TypeError"
  | .SizeLargerThanBlobPart => "TypeError"
  | .BlobURLsNotSupported => "TypeError"
  | .Url => "Error"

/-- Embeds `deno_tls::TlsError`. -/
inductive TlsError where
  | Rustls
  | UnableAddPemFileToCert (e : IoError)
  | CertInvalid
  | CertsNotFound
  | KeysNotFound
  | KeyDecode
deriving DecidableEq, Repr

/-- Embeds `get_tls_error_class` (lines 300-309). -/
def get_tls_error_class (e : TlsError) : String :=
  match e with
  | .Rustls => "Error"
  | .UnableAddPemFileToCert e => get_io_error_class e
  | .CertInvalid => "InvalidData"
  | .CertsNotFound => "InvalidData"
  | .KeysNotFound => "InvalidData"
  | .KeyDecode => "InvalidData"

/-- Embeds `deno_canvas::CanvasError`. -/
inductive CanvasError where
  | UnsupportedColorType
  | Image
deriving DecidableEq, Repr

/-- Embeds `get_canvas_error` (lines 327-332). -/
def get_canvas_error (e : CanvasError) : String :=
  match e with
  | .UnsupportedColorType => "TypeError"
  | .Image => "Error"

/-- Embeds `deno_webstorage::WebStorageError`. -/
inductive WebStorageError where
  | ContextNotSupported
  | Sqlite
  | Io (e : IoError)
  | StorageExceeded
deriving DecidableEq, Repr

/-- Embeds `get_webstorage_class_name` (lines 291-298); the `Sqlite` arm is
`todo!()`, modelled as `panicked`. -/
def get_webstorage_class_name (e : WebStorageError) : ClassResult :=
  match e with
  | .ContextNotSupported => .tag "DOMExceptionNotSupportedError"
  | .Sqlite => .panicked
  | .Io e => .tag (get_io_error_class e)
  | .StorageExceeded => .tag "DOMExceptionQuotaExceededError"

/-- Embeds `deno_kv::KvCheckError`. -/
inductive KvCheckError where
  | InvalidVersionstamp
  | Io (e : IoError)
deriving DecidableEq, Repr

/-- Embeds `deno_kv::KvMutationError`. -/
inductive KvMutationError where
  | BigInt
  | Io (e : IoError)
  | InvalidMutationWithValue
  | InvalidMutationWithoutValue
deriving DecidableEq, Repr

/-- Embeds `deno_net::io::MapError`. -/
inductive MapError where
  | Io (e : IoError)
  | NoResources
deriving DecidableEq, Repr

/-- Embeds `get_net_map_error` (lines 435-440). -/
def get_net_map_error (error : MapError) : String :=
  match error with
  | .Io e => get_io_error_class e
  | .NoResources => "Error"

mutual

/-- The type-erased error value (`deno_core::error::AnyError`):
`customClass` is the custom/resource-supplied classification.
Modelled from the spec: the custom classification hook
(`deno_core::error::get_custom_error_class`, outside src/) lets any error
value carry an optional class tag, consulted before every built-in check;
`concrete` is the concrete error type the registry probes for. -/
inductive AnyError where
  | mk (customClass : Option String) (concrete : ConcreteError)

/-- The concrete type behind an `AnyError`: one constructor per
`downcast_ref` probe of `get_error_class_name` (lines 442-553), plus
`gpu`/`websocket` for values the webgpu / websocket hooks recognize
(modelled from the spec: those two built-in checks live outside src/ and
report their own subsystem's tag), plus `unknown` for a type with no
registered classifier. -/
inductive ConcreteError where
  | gpu (cls : String)
  | websocket (cls : String)
  | web (e : WebError)
  | compression (e : CompressionError)
  | messagePort (e : MessagePortError)
  | streamResource (e : StreamResourceError)
  | blob (e : BlobError)
  | ir
  | ffiRepr (e : ReprError)
  | ffiDlfcn (e : DlfcnError)
  | ffiStatic (e : StaticError)
  | ffiCallback (e : CallbackError)
  | ffiCall (e : CallError)
  | tls (e : TlsError)
  | cron (e : CronError)
  | canvas (e : CanvasError)
  | cache (e : CacheError)
  | kv (e : KvError)
  | net (e : NetError)
  | netMap (e : MapError)
  | broadcastChannel (e : BroadcastChannelError)
  | webStorage (e : WebStorageError)
  | urlPattern
  | dlopen (e : DlopenError)
  | hyper
  | hyperUtil
  | hyperV014
  | arcHyperV014
  | canceled
  | envVar (e : VarError)
  | io (e : IoError)
  | moduleResolution (e : ModuleResolutionError)
  | notify (e : NotifyError)
  | regex (e : RegexError)
  | serdeJson (e : SerdeJsonError)
  | urlParse (e : UrlParseError)
  | sqliteBackend
  | nix (e : NixError)
  | unknown (typeName : String)

/-- Embeds `deno_web::MessagePortError`. -/
inductive MessagePortError where
  | InvalidTransfer
  | NotReady
  | TransferSelf
  | Canceled
  | Resource (e : AnyError)

/-- Embeds `deno_ffi::ReprError`. -/
inductive ReprError where
  | InvalidOffset
  | InvalidArrayBuffer
  | DestinationLengthTooShort
  | InvalidCString
  | CStringTooLong
  | InvalidBool
  | InvalidU8
  | InvalidI8
  | InvalidU16
  | InvalidI16
  | InvalidU32
  | InvalidI32
  | InvalidU64
  | InvalidI64
  | InvalidF32
  | InvalidF64
  | InvalidPointer
  | Permission (e : AnyError)

/-- Embeds `deno_ffi::DlfcnError`. -/
inductive DlfcnError where
  | RegisterSymbol
  | Dlopen
  | Permission (e : AnyError)
  | Other (e : AnyError)

/-- Embeds `deno_ffi::StaticError`. -/
inductive StaticError where
  | Dlfcn (e : DlfcnError)
  | InvalidTypeVoid
  | InvalidTypeStruct
  | Resource (e : AnyError)

/-- Embeds `deno_ffi::CallbackError`. -/
inductive CallbackError where
  | Resource (e : AnyError)
  | Other (e : AnyError)
  | Permission (e : AnyError)

/-- Embeds `deno_ffi::CallError`. -/
inductive CallError where
  | IR
  | NonblockingCallFailure
  | InvalidSymbol
  | Permission (e : AnyError)
  | Callback (e : CallbackError)

/-- Embeds `deno_cron::CronError`. -/
inductive CronError where
  | Resource (e : AnyError)
  | NameExceeded (n : Nat)
  | NameInvalid
  | AlreadyExists
  | TooManyCrons
  | InvalidCron
  | InvalidBackoff
  | AcquireError
  | Other (e : AnyError)

/-- Embeds `deno_cache::CacheError`. -/
inductive CacheError where
  | Sqlite
  | JoinError
  | Resource (e : AnyError)
  | Other (e : AnyError)
  | Io (e : IoError)

/-- Embeds `deno_kv::KvError`. -/
inductive KvError where
  | DatabaseHandler (e : AnyError)
  | Resource (e : AnyError)
  | Kv (e : AnyError)
  | TooManyRanges (n : Nat)
  | TooManyEntries (n : Nat)
  | TooManyChecks (n : Nat)
  | TooManyMutations (n : Nat)
  | TooManyKeys (n : Nat)
  | InvalidLimit
  | InvalidBoundaryKey
  | KeyTooLargeToRead (n : Nat)
  | KeyTooLargeToWrite (n : Nat)
  | TotalMutationTooLarge (n : Nat)
  | TotalKeyTooLarge (n : Nat)
  | Io (e : IoError)
  | QueueMessageNotFound
  | StartKeyNotInKeyspace
  | EndKeyNotInKeyspace
  | StartKeyGreaterThanEndKey
  | InvalidCheck (e : KvCheckError)
  | InvalidMutation (e : KvMutationError)
  | InvalidEnqueue (e : IoError)
  | EmptyKey
  | ValueTooLarge (n : Nat)
  | EnqueuePayloadTooLarge (n : Nat)
  | InvalidCursor
  | CursorOutOfBounds
  | InvalidRange

/-- Embeds `deno_net::ops::NetError`. -/
inductive NetError where
  | ListenerClosed
  | ListenerBusy
  | SocketClosed
  | SocketClosedNotConnected
  | SocketBusy
  | Io (e : IoError)
  | AcceptTaskOngoing
  | RootCertStore (e : AnyError)
  | Permission (e : AnyError)
  | Resource (e : AnyError)
  | NoResolvedAddress
  | AddrParse
  | Map (e : MapError)
  | Canceled
  | DnsNotFound
  | DnsNotConnected
  | DnsTimedOut
  | Dns
  | UnsupportedRecordType
  | InvalidUtf8
  | UnexpectedKeyType
  | InvalidHostname (s : String)
  | TcpStreamBusy
  | Rustls
  | Tls (e : TlsError)
  | ListenTlsRequiresKey
  | Reunite

/-- Embeds `deno_broadcast_channel::BroadcastChannelError`. -/
inductive BroadcastChannelError where
  | Resource (e : AnyError)
  | MPSCSendError
  | BroadcastSendError
  | Other (e : AnyError)

end

/-- The custom class carried by an error value. -/
def AnyError.customClass : AnyError → Option String
  | .mk c _ => c

/-- The concrete error behind an error value. -/
def AnyError.concrete : AnyError → ConcreteError
  | .mk _ c => c

/-- Modelled from the spec: `deno_core::error::get_custom_error_class`
(outside src/), the custom/resource-supplied classification hook: reports
the class tag the error value carries, if any. -/
def get_custom_error_class (e : AnyError) : Option String :=
  e.customClass

/-- Rust `get_error_class_name(e).unwrap_or(d)` on a registry result. -/
def RegistryResult.unwrapOr : RegistryResult → String → ClassResult
  | .tag s, _ => .tag s
  | .unclassified, d => .tag d
  | .panicked, _ => .panicked

/-- Lifts a domain classifier's result into a registry result
(`.map(get_xxx_error_class)` around a successful downcast). -/
def ClassResult.toRegistry : ClassResult → RegistryResult
  | .tag s => .tag s
  | .panicked => .panicked

mutual

/-- Embeds `get_web_message_port_error_class` (lines 198-209). -/
def get_web_message_port_error_class (e : MessagePortError) : ClassResult :=
  match e with
  | .InvalidTransfer => .tag "TypeError"
  | .NotReady => .tag "TypeError"
  | .TransferSelf => .tag "TypeError"
  | .Canceled => .tag (get_io_error_class canceledIoError)
  | .Resource e => (get_error_class_name e).unwrapOr "Error"

/-- Embeds `get_ffi_repr_error_class` (lines 232-253). -/
def get_ffi_repr_error_class (e : ReprError) : ClassResult :=
  match e with
  | .InvalidOffset => .tag "TypeError"
  | .InvalidArrayBuffer => .tag "TypeError"
  | .DestinationLengthTooShort => .tag "RangeError"
  | .InvalidCString => .tag "TypeError"
  | .CStringTooLong => .tag "TypeError"
  | .InvalidBool => .tag "TypeError"
  | .InvalidU8 => .tag "TypeError"
  | .InvalidI8 => .tag "TypeError"
  | .InvalidU16 => .tag "TypeError"
  | .InvalidI16 => .tag "TypeError"
  | .InvalidU32 => .tag "TypeError"
  | .InvalidI32 => .tag "TypeError"
  | .InvalidU64 => .tag "TypeError"
  | .InvalidI64 => .tag "TypeError"
  | .InvalidF32 => .tag "TypeError"
  | .InvalidF64 => .tag "TypeError"
  | .InvalidPointer => .tag "TypeError"
  | .Permission e => (get_error_class_name e).unwrapOr "Error"

/-- Embeds `get_ffi_dlfcn_error_class` (lines 255-262). -/
def get_ffi_dlfcn_error_class (e : DlfcnError) : ClassResult :=
  match e with
  | .RegisterSymbol => .tag "Error"
  | .Dlopen => .tag "Error"
  | .Permission e => (get_error_class_name e).unwrapOr "Error"
  | .Other e => (get_error_class_name e).unwrapOr "Error"

/-- Embeds `get_ffi_static_error_class` (lines 264-271). -/
def get_ffi_static_error_class (e : StaticError) : ClassResult :=
  match e with
  | .Dlfcn e => get_ffi_dlfcn_error_class e
  | .InvalidTypeVoid => .tag "TypeError"
  | .InvalidTypeStruct => .tag "TypeError"
  | .Resource e => (get_error_class_name e).unwrapOr "Error"

/-- Embeds `get_ffi_callback_error_class` (lines 273-279). -/
def get_ffi_callback_error_class (e : CallbackError) : ClassResult :=
  match e with
  | .Resource e => (get_error_class_name e).unwrapOr "Error"
  | .Other e => (get_error_class_name e).unwrapOr "Error"
  | .Permission e => (get_error_class_name e).unwrapOr "Error"

/-- Embeds `get_ffi_call_error_class` (lines 281-289). -/
def get_ffi_call_error_class (e : CallError) : ClassResult :=
  match e with
  | .IR => .tag "TypeError"
  | .NonblockingCallFailure => .tag "Error"
  | .InvalidSymbol => .tag "TypeError"
  | .Permission e => (get_error_class_name e).unwrapOr "Error"
  | .Callback e => get_ffi_callback_error_class e

/-- Embeds `get_cron_error_class` (lines 311-325). -/
def get_cron_error_class (e : CronError) : ClassResult :=
  match e with
  | .Resource e => .tag ((get_custom_error_class e).getD "Error")
  | .NameExceeded _ => .tag "TypeError"
  | .NameInvalid => .tag "TypeError"
  | .AlreadyExists => .tag "TypeError"
  | .TooManyCrons => .tag "TypeError"
  | .InvalidCron => .tag "TypeError"
  | .InvalidBackoff => .tag "TypeError"
  | .AcquireError => .tag "Error"
  | .Other e => (get_error_class_name e).unwrapOr "Error"

/-- Embeds `get_cache_error` (lines 334-344). -/
def get_cache_error (error : CacheError) : ClassResult :=
  match error with
  | .Sqlite => .tag "Error"
  | .JoinError => .tag "Error"
  | .Resource err => .tag ((get_custom_error_class err).getD "Error")
  | .Other e => (get_error_class_name e).unwrapOr "Error"
  | .Io err => .tag (get_io_error_class err)

/-- Embeds `get_broadcast_channel_error` (lines 346-357). The `Resource`
arm is `get_custom_error_class(err).unwrap()`: it panics when the wrapped
error carries no custom class. -/
def get_broadcast_channel_error (error : BroadcastChannelError) : ClassResult :=
  match error with
  | .Resource err =>
    match get_custom_error_class err with
    | some s => .tag s
    | none => .panicked
  | .MPSCSendError => .tag "Error"
  | .BroadcastSendError => .tag "Error"
  | .Other err => (get_error_class_name err).unwrapOr "Error"

/-- Embeds `get_kv_error` (lines 359-398). -/
def get_kv_error (error : KvError) : ClassResult :=
  match error with
  | .DatabaseHandler e => (get_error_class_name e).unwrapOr "Error"
  | .Resource e => (get_error_class_name e).unwrapOr "Error"
  | .Kv e => (get_error_class_name e).unwrapOr "Error"
  | .TooManyRanges _ => .tag "TypeError"
  | .TooManyEntries _ => .tag "TypeError"
  | .TooManyChecks _ => .tag "TypeError"
  | .TooManyMutations _ => .tag "TypeError"
  | .TooManyKeys _ => .tag "TypeError"
  | .InvalidLimit => .tag "TypeError"
  | .InvalidBoundaryKey => .tag "TypeError"
  | .KeyTooLargeToRead _ => .tag "TypeError"
  | .KeyTooLargeToWrite _ => .tag "TypeError"
  | .TotalMutationTooLarge _ => .tag "TypeError"
  | .TotalKeyTooLarge _ => .tag "TypeError"
  | .Io e => .tag (get_io_error_class e)
  | .QueueMessageNotFound => .tag "TypeError"
  | .StartKeyNotInKeyspace => .tag "TypeError"
  | .EndKeyNotInKeyspace => .tag "TypeError"
  | .StartKeyGreaterThanEndKey => .tag "TypeError"
  | .InvalidCheck e =>
    match e with
    | .InvalidVersionstamp => .tag "TypeError"
    | .Io e => .tag (get_io_error_class e)
  | .InvalidMutation e =>
    match e with
    | .BigInt => .tag "Error"
    | .Io e => .tag (get_io_error_class e)
    | .InvalidMutationWithValue => .tag "TypeError"
    | .InvalidMutationWithoutValue => .tag "TypeError"
  | .InvalidEnqueue e => .tag (get_io_error_class e)
  | .EmptyKey => .tag "TypeError"
  | .ValueTooLarge _ => .tag "TypeError"
  | .EnqueuePayloadTooLarge _ => .tag "TypeError"
  | .InvalidCursor => .tag "TypeError"
  | .CursorOutOfBounds => .tag "TypeError"
  | .InvalidRange => .tag "TypeError"

/-- Embeds `get_net_error` (lines 400-433). -/
def get_net_error (error : NetError) : ClassResult :=
  match error with
  | .ListenerClosed => .tag "BadResource"
  | .ListenerBusy => .tag "Busy"
  | .SocketClosed => .tag "BadResource"
  | .SocketClosedNotConnected => .tag "NotConnected"
  | .SocketBusy => .tag "Busy"
  | .Io e => .tag (get_io_error_class e)
  | .AcceptTaskOngoing => .tag "Busy"
  | .RootCertStore e => (get_error_class_name e).unwrapOr "Error"
  | .Permission e => (get_error_class_name e).unwrapOr "Error"
  | .Resource e => (get_error_class_name e).unwrapOr "Error"
  | .NoResolvedAddress => .tag "Error"
  | .AddrParse => .tag "Error"
  | .Map e => .tag (get_net_map_error e)
  | .Canceled => .tag (get_io_error_class canceledIoError)
  | .DnsNotFound => .tag "NotFound"
  | .DnsNotConnected => .tag "NotConnected"
  | .DnsTimedOut => .tag "TimedOut"
  | .Dns => .tag "Error"
  | .UnsupportedRecordType => .tag "NotSupported"
  | .InvalidUtf8 => .tag "InvalidData"
  | .UnexpectedKeyType => .tag "Error"
  | .InvalidHostname _ => .tag "TypeError"
  | .TcpStreamBusy => .tag "Busy"
  | .Rustls => .tag "Error"
  | .Tls e => .tag (get_tls_error_class e)
  | .ListenTlsRequiresKey => .tag "InvalidData"
  | .Reunite => .tag "Error"

/-- Embeds the registry `get_error_class_name` (lines 442-553): the
custom-class hook is consulted first, then the fixed sequence of built-in
checks; the checks are mutually exclusive by concrete type, so the chain of
`or_else` calls collapses to a match on the concrete error. -/
def get_error_class_name (e : AnyError) : RegistryResult :=
  match e with
  | .mk (some cls) _ => .tag cls
  | .mk none concrete =>
    match concrete with
    | .gpu cls => .tag cls
    | .websocket cls => .tag cls
    | .web e => .tag (get_web_error_class e)
    | .compression e => .tag (get_web_compression_error_class e)
    | .messagePort e => (get_web_message_port_error_class e).toRegistry
    | .streamResource e => .tag (get_web_stream_resource_error_class e)
    | .blob e => .tag (get_web_blob_error_class e)
    | .ir => .tag "TypeError"
    | .ffiRepr e => (get_ffi_repr_error_class e).toRegistry
    | .ffiDlfcn e => (get_ffi_dlfcn_error_class e).toRegistry
    | .ffiStatic e => (get_ffi_static_error_class e).toRegistry
    | .ffiCallback e => (get_ffi_callback_error_class e).toRegistry
    | .ffiCall e => (get_ffi_call_error_class e).toRegistry
    | .tls e => .tag (get_tls_error_class e)
    | .cron e => (get_cron_error_class e).toRegistry
    | .canvas e => .tag (get_canvas_error e)
    | .cache e => (get_cache_error e).toRegistry
    | .kv e => (get_kv_error e).toRegistry
    | .net e => (get_net_error e).toRegistry
    | .netMap e => .tag (get_net_map_error e)
    | .broadcastChannel e => (get_broadcast_channel_error e).toRegistry
    | .webStorage e => (get_webstorage_class_name e).toRegistry
    | .urlPattern => .tag "TypeError"
    | .dlopen e => .tag (get_dlopen_error_class e)
    | .hyper => .tag "Http"
    | .hyperUtil => .tag "Http"
    | .hyperV014 => .tag "Http"
    | .arcHyperV014 => .tag "Http"
    | .canceled => .tag (get_io_error_class canceledIoError)
    | .envVar e => .tag (get_env_var_error_class e)
    | .io e => .tag (get_io_error_class e)
    | .moduleResolution e => .tag (get_module_resolution_error_class e)
    | .notify e => .tag (get_notify_error_class e)
    | .regex e => .tag (get_regex_error_class e)
    | .serdeJson e => .tag (get_serde_json_error_class e)
    | .urlParse e => .tag (get_url_parse_error_class e)
    | .sqliteBackend => .tag "TypeError"
    | .nix e => (get_nix_error_class e).toRegistry
    | .unknown _ => .unclassified

end

mutual

/-- True when the error value contains, in some wrapped position, one of
the three panic sources of the classifier: the web-storage `Sqlite` variant
(a `todo!()`), the nix `ENOTSUP` variant (an `unreachable!()`), or a
broadcast-channel `Resource` variant whose wrapped error carries no custom
class (an `unwrap` on `None`). -/
def panicSrcAny : AnyError → Bool
  | .mk _ c => panicSrcConcrete c

/-- Panic sources inside a concrete error (see `panicSrcAny`). -/
def panicSrcConcrete : ConcreteError → Bool
  | .messagePort e => panicSrcMessagePort e
  | .ffiRepr e => panicSrcRepr e
  | .ffiDlfcn e => panicSrcDlfcn e
  | .ffiStatic e => panicSrcStatic e
  | .ffiCallback e => panicSrcCallback e
  | .ffiCall e => panicSrcCall e
  | .cron e => panicSrcCron e
  | .cache e => panicSrcCache e
  | .kv e => panicSrcKv e
  | .net e => panicSrcNet e
  | .broadcastChannel e => panicSrcBroadcast e
  | .webStorage .Sqlite => true
  | .webStorage _ => false
  | .nix .ENOTSUP => true
  | .nix _ => false
  | _ => false

/-- Panic sources inside a message-port error. -/
def panicSrcMessagePort : MessagePortError → Bool
  | .Resource e => panicSrcAny e
  | _ => false

/-- Panic sources inside an FFI representation error. -/
def panicSrcRepr : ReprError → Bool
  | .Permission e => panicSrcAny e
  | _ => false

/-- Panic sources inside an FFI dlfcn error. -/
def panicSrcDlfcn : DlfcnError → Bool
  | .Permission e => panicSrcAny e
  | .Other e => panicSrcAny e
  | _ => false

/-- Panic sources inside an FFI static-symbol error. -/
def panicSrcStatic : StaticError → Bool
  | .Dlfcn e => panicSrcDlfcn e
  | .Resource e => panicSrcAny e
  | _ => false

/-- Panic sources inside an FFI callback error. -/
def panicSrcCallback : CallbackError → Bool
  | .Resource e => panicSrcAny e
  | .Other e => panicSrcAny e
  | .Permission e => panicSrcAny e

/-- Panic sources inside an FFI call error. -/
def panicSrcCall : CallError → Bool
  | .Permission e => panicSrcAny e
  | .Callback e => panicSrcCallback e
  | _ => false

/-- Panic sources inside a cron error (its `Resource` arm only reads the
custom class, so only `Other` recurses). -/
def panicSrcCron : CronError → Bool
  | .Other e => panicSrcAny e
  | _ => false

/-- Panic sources inside a cache error (its `Resource` arm only reads the
custom class, so only `Other` recurses). -/
def panicSrcCache : CacheError → Bool
  | .Other e => panicSrcAny e
  | _ => false

/-- Panic sources inside a key-value store error. -/
def panicSrcKv : KvError → Bool
  | .DatabaseHandler e => panicSrcAny e
  | .Resource e => panicSrcAny e
  | .Kv e => panicSrcAny e
  | _ => false

/-- Panic sources inside a networking error. -/
def panicSrcNet : NetError → Bool
  | .RootCertStore e => panicSrcAny e
  | .Permission e => panicSrcAny e
  | .Resource e => panicSrcAny e
  | _ => false

/-- Panic sources inside a broadcast-channel error: the `Resource` arm is
an `unwrap` of the wrapped error's custom class, so it is a panic source
exactly when that custom class is absent. -/
def panicSrcBroadcast : BroadcastChannelError → Bool
  | .Resource e => (get_custom_error_class e).isNone
  | .Other e => panicSrcAny e
  | _ => false

end

mutual

/-- True when no class tag anywhere in the error value is supplied by a
hook: the value carries no custom class, is not recognized by the
webgpu/websocket checks, and the same holds for every wrapped error
value. -/
def hookFreeAny : AnyError → Bool
  | .mk c k => c.isNone && hookFreeConcrete k

/-- Hook-freeness of a concrete error (see `hookFreeAny`). -/
def hookFreeConcrete : ConcreteError → Bool
  | .gpu _ => false
  | .websocket _ => false
  | .messagePort e => hookFreeMessagePort e
  | .ffiRepr e => hookFreeRepr e
  | .ffiDlfcn e => hookFreeDlfcn e
  | .ffiStatic e => hookFreeStatic e
  | .ffiCallback e => hookFreeCallback e
  | .ffiCall e => hookFreeCall e
  | .cron e => hookFreeCron e
  | .cache e => hookFreeCache e
  | .kv e => hookFreeKv e
  | .net e => hookFreeNet e
  | .broadcastChannel e => hookFreeBroadcast e
  | _ => true

/-- Hook-freeness inside a message-port error. -/
def hookFreeMessagePort : MessagePortError → Bool
  | .Resource e => hookFreeAny e
  | _ => true

/-- Hook-freeness inside an FFI representation error. -/
def hookFreeRepr : ReprError → Bool
  | .Permission e => hookFreeAny e
  | _ => true

/-- Hook-freeness inside an FFI dlfcn error. -/
def hookFreeDlfcn : DlfcnError → Bool
  | .Permission e => hookFreeAny e
  | .Other e => hookFreeAny e
  | _ => true

/-- Hook-freeness inside an FFI static-symbol error. -/
def hookFreeStatic : StaticError → Bool
  | .Dlfcn e => hookFreeDlfcn e
  | .Resource e => hookFreeAny e
  | _ => true

/-- Hook-freeness inside an FFI callback error. -/
def hookFreeCallback : CallbackError → Bool
  | .Resource e => hookFreeAny e
  | .Other e => hookFreeAny e
  | .Permission e => hookFreeAny e

/-- Hook-freeness inside an FFI call error. -/
def hookFreeCall : CallError → Bool
  | .Permission e => hookFreeAny e
  | .Callback e => hookFreeCallback e
  | _ => true

/-- Hook-freeness inside a cron error. -/
def hookFreeCron : CronError → Bool
  | .Resource e => hookFreeAny e
  | .Other e => hookFreeAny e
  | _ => true

/-- Hook-freeness inside a cache error. -/
def hookFreeCache : CacheError → Bool
  | .Resource e => hookFreeAny e
  | .Other e => hookFreeAny e
  | _ => true

/-- Hook-freeness inside a key-value store error. -/
def hookFreeKv : KvError → Bool
  | .DatabaseHandler e => hookFreeAny e
  | .Resource e => hookFreeAny e
  | .Kv e => hookFreeAny e
  | _ => true

/-- Hook-freeness inside a networking error. -/
def hookFreeNet : NetError → Bool
  | .RootCertStore e => hookFreeAny e
  | .Permission e => hookFreeAny e
  | .Resource e => hookFreeAny e
  | _ => true

/-- Hook-freeness inside a broadcast-channel error. -/
def hookFreeBroadcast : BroadcastChannelError → Bool
  | .Resource e => hookFreeAny e
  | .Other e => hookFreeAny e
  | _ => true

end

/-- The fixed, finite vocabulary of class tags: every string literal a
built-in classifier in `src/runtime/errors.rs` can return. -/
def classTagVocabulary : List String :=
  [ "NotFound", "PermissionDenied", "ConnectionRefused", "ConnectionReset",
    "ConnectionAborted", "NotConnected", "AddrInUse", "AddrNotAvailable",
    "BrokenPipe", "AlreadyExists", "TypeError", "InvalidData", "TimedOut",
    "Interrupted", "WriteZero", "UnexpectedEof", "Error", "WouldBlock",
    "FilesystemLoop", "IsADirectory", "NetworkUnreachable", "NotADirectory",
    "URIError", "SyntaxError", "RangeError", "Http", "BadResource", "Busy",
    "NotSupported", "DOMExceptionInvalidCharacterError",
    "DOMExceptionNotSupportedError", "DOMExceptionQuotaExceededError" ]

/-- True exactly for the constructor standing for a type with no
registered classifier. -/
def ConcreteError.isUnknown : ConcreteError → Bool
  | .unknown _ => true
  | _ => false

theorem ClassResult.toRegistry_ne_unclassified (r : ClassResult) :
    r.toRegistry ≠ RegistryResult.unclassified := by
  cases r <;> simp [ClassResult.toRegistry]

theorem ClassResult.toRegistry_ne_panicked (r : ClassResult)
    (h : r ≠ ClassResult.panicked) : r.toRegistry ≠ RegistryResult.panicked := by
  cases r <;> simp_all [ClassResult.toRegistry]

theorem RegistryResult.unwrapOr_ne_panicked (r : RegistryResult) (d : String)
    (h : r ≠ RegistryResult.panicked) :
    r.unwrapOr d ≠ ClassResult.panicked := by
  cases r <;> simp_all [RegistryResult.unwrapOr]

theorem get_io_error_class_mem_vocab (e : IoError) :
    get_io_error_class e ∈ classTagVocabulary := by
  obtain ⟨k⟩ := e
  cases k
  case nonExhaustive s =>
    simp only [get_io_error_class]
    split <;> decide
  all_goals decide

theorem get_env_var_error_class_mem_vocab (e : VarError) :
    get_env_var_error_class e ∈ classTagVocabulary := by
  cases e <;> decide

theorem get_dlopen_error_class_mem_vocab (e : DlopenError) :
    get_dlopen_error_class e ∈ classTagVocabulary := by
  cases e <;> first | decide | exact get_io_error_class_mem_vocab _

theorem get_notify_error_class_mem_vocab (e : NotifyError) :
    get_notify_error_class e ∈ classTagVocabulary := by
  cases e <;> first | decide | exact get_io_error_class_mem_vocab _

theorem get_regex_error_class_mem_vocab (e : RegexError) :
    get_regex_error_class e ∈ classTagVocabulary := by
  cases e <;> decide

theorem get_serde_json_error_class_mem_vocab (e : SerdeJsonError) :
    get_serde_json_error_class e ∈ classTagVocabulary := by
  cases e <;> first | decide | exact get_io_error_class_mem_vocab _

theorem get_url_parse_error_class_mem_vocab (e : UrlParseError) :
    get_url_parse_error_class e ∈ classTagVocabulary := by
  cases e <;> decide

theorem get_module_resolution_error_class_mem_vocab (e : ModuleResolutionError) :
    get_module_resolution_error_class e ∈ classTagVocabulary :=
  show "URIError" ∈ classTagVocabulary by decide

theorem get_web_error_class_mem_vocab (e : WebError) :
    get_web_error_class e ∈ classTagVocabulary := by
  cases e <;> decide

theorem get_web_compression_error_class_mem_vocab (e : CompressionError) :
    get_web_compression_error_class e ∈ classTagVocabulary := by
  cases e <;> first | decide | exact get_io_error_class_mem_vocab _

theorem get_web_stream_resource_error_class_mem_vocab (e : StreamResourceError) :
    get_web_stream_resource_error_class e ∈ classTagVocabulary := by
  cases e <;> decide

theorem get_web_blob_error_class_mem_vocab (e : BlobError) :
    get_web_blob_error_class e ∈ classTagVocabulary := by
  cases e <;> decide

theorem get_tls_error_class_mem_vocab (e : TlsError) :
    get_tls_error_class e ∈ classTagVocabulary := by
  cases e <;> first | decide | exact get_io_error_class_mem_vocab _

theorem get_canvas_error_mem_vocab (e : CanvasError) :
    get_canvas_error e ∈ classTagVocabulary := by
  cases e <;> decide

theorem get_net_map_error_mem_vocab (e : MapError) :
    get_net_map_error e ∈ classTagVocabulary := by
  cases e <;> first | decide | exact get_io_error_class_mem_vocab _

theorem get_webstorage_class_name_mem_vocab (e : WebStorageError) (s : String)
    (h : get_webstorage_class_name e = ClassResult.tag s) :
    s ∈ classTagVocabulary := by
  cases e <;> simp only [get_webstorage_class_name] at h
  case ContextNotSupported => injection h with h2; subst h2; decide
  case Sqlite => exact absurd h (by simp)
  case Io e => injection h with h2; subst h2; exact get_io_error_class_mem_vocab e
  case StorageExceeded => injection h with h2; subst h2; decide

theorem get_nix_error_class_mem_vocab (e : NixError) (s : String)
    (h : get_nix_error_class e = ClassResult.tag s) :
    s ∈ classTagVocabulary := by
  cases e <;> simp only [get_nix_error_class] at h <;>
    first
      | (injection h with h2; subst h2; decide)
      | exact absurd h (by simp)

theorem RegistryResult.unwrapOr_mem_vocab (r : RegistryResult)
    (hr : ∀ s, r = RegistryResult.tag s → s ∈ classTagVocabulary) :
    ∀ s, r.unwrapOr "Error" = ClassResult.tag s → s ∈ classTagVocabulary := by
  cases r with
  | tag t =>
    intro s h
    simp only [RegistryResult.unwrapOr] at h
    injection h with h2
    subst h2
    exact hr t rfl
  | unclassified =>
    intro s h
    simp only [RegistryResult.unwrapOr] at h
    injection h with h2
    subst h2
    decide
  | panicked =>
    intro s h
    exact absurd h (by simp [RegistryResult.unwrapOr])

theorem ClassResult.toRegistry_mem_vocab (r : ClassResult)
    (hr : ∀ s, r = ClassResult.tag s → s ∈ classTagVocabulary) :
    ∀ s, r.toRegistry = RegistryResult.tag s → s ∈ classTagVocabulary := by
  cases r with
  | tag t =>
    intro s h
    simp only [ClassResult.toRegistry] at h
    injection h with h2
    subst h2
    exact hr t rfl
  | panicked =>
    intro s h
    exact absurd h (by simp [ClassResult.toRegistry])

mutual

theorem get_web_message_port_error_class_no_panic :
    ∀ (x : MessagePortError), panicSrcMessagePort x = false →
      get_web_message_port_error_class x ≠ ClassResult.panicked
  | .InvalidTransfer, _ => fun h => ClassResult.noConfusion h
  | .NotReady, _ => fun h => ClassResult.noConfusion h
  | .TransferSelf, _ => fun h => ClassResult.noConfusion h
  | .Canceled, _ => fun h => ClassResult.noConfusion h
  | .Resource e, h =>
    RegistryResult.unwrapOr_ne_panicked _ _ (get_error_class_name_no_panic e h)

theorem get_ffi_repr_error_class_no_panic :
    ∀ (x : ReprError), panicSrcRepr x = false →
      get_ffi_repr_error_class x ≠ ClassResult.panicked
  | .InvalidOffset, _ => fun h => ClassResult.noConfusion h
  | .InvalidArrayBuffer, _ => fun h => ClassResult.noConfusion h
  | .DestinationLengthTooShort, _ => fun h => ClassResult.noConfusion h
  | .InvalidCString, _ => fun h => ClassResult.noConfusion h
  | .CStringTooLong, _ => fun h => ClassResult.noConfusion h
  | .InvalidBool, _ => fun h => ClassResult.noConfusion h
  | .InvalidU8, _ => fun h => ClassResult.noConfusion h
  | .InvalidI8, _ => fun h => ClassResult.noConfusion h
  | .InvalidU16, _ => fun h => ClassResult.noConfusion h
  | .InvalidI16, _ => fun h => ClassResult.noConfusion h
  | .InvalidU32, _ => fun h => ClassResult.noConfusion h
  | .InvalidI32, _ => fun h => ClassResult.noConfusion h
  | .InvalidU64, _ => fun h => ClassResult.noConfusion h
  | .InvalidI64, _ => fun h => ClassResult.noConfusion h
  | .InvalidF32, _ => fun h => ClassResult.noConfusion h
  | .InvalidF64, _ => fun h => ClassResult.noConfusion h
  | .InvalidPointer, _ => fun h => ClassResult.noConfusion h
  | .Permission e, h =>
    RegistryResult.unwrapOr_ne_panicked _ _ (get_error_class_name_no_panic e h)

theorem get_ffi_dlfcn_error_class_no_panic :
    ∀ (x : DlfcnError), panicSrcDlfcn x = false →
      get_ffi_dlfcn_error_class x ≠ ClassResult.panicked
  | .RegisterSymbol, _ => fun h => ClassResult.noConfusion h
  | .Dlopen, _ => fun h => ClassResult.noConfusion h
  | .Permission e, h =>
    RegistryResult.unwrapOr_ne_panicked _ _ (get_error_class_name_no_panic e h)
  | .Other e, h =>
    RegistryResult.unwrapOr_ne_panicked _ _ (get_error_class_name_no_panic e h)

theorem get_ffi_static_error_class_no_panic :
    ∀ (x : StaticError), panicSrcStatic x = false →
      get_ffi_static_error_class x ≠ ClassResult.panicked
  | .Dlfcn e, h => get_ffi_dlfcn_error_class_no_panic e h
  | .InvalidTypeVoid, _ => fun h => ClassResult.noConfusion h
  | .InvalidTypeStruct, _ => fun h => ClassResult.noConfusion h
  | .Resource e, h =>
    RegistryResult.unwrapOr_ne_panicked _ _ (get_error_class_name_no_panic e h)

theorem get_ffi_callback_error_class_no_panic :
    ∀ (x : CallbackError), panicSrcCallback x = false →
      get_ffi_callback_error_class x ≠ ClassResult.panicked
  | .Resource e, h =>
    RegistryResult.unwrapOr_ne_panicked _ _ (get_error_class_name_no_panic e h)
  | .Other e, h =>
    RegistryResult.unwrapOr_ne_panicked _ _ (get_error_class_name_no_panic e h)
  | .Permission e, h =>
    RegistryResult.unwrapOr_ne_panicked _ _ (get_error_class_name_no_panic e h)

theorem get_ffi_call_error_class_no_panic :
    ∀ (x : CallError), panicSrcCall x = false →
      get_ffi_call_error_class x ≠ ClassResult.panicked
  | .IR, _ => fun h => ClassResult.noConfusion h
  | .NonblockingCallFailure, _ => fun h => ClassResult.noConfusion h
  | .InvalidSymbol, _ => fun h => ClassResult.noConfusion h
  | .Permission e, h =>
    RegistryResult.unwrapOr_ne_panicked _ _ (get_error_class_name_no_panic e h)
  | .Callback e, h => get_ffi_callback_error_class_no_panic e h

theorem get_cron_error_class_no_panic :
    ∀ (x : CronError), panicSrcCron x = false →
      get_cron_error_class x ≠ ClassResult.panicked
  | .Resource _, _ => fun h => ClassResult.noConfusion h
  | .NameExceeded _, _ => fun h => ClassResult.noConfusion h
  | .NameInvalid, _ => fun h => ClassResult.noConfusion h
  | .AlreadyExists, _ => fun h => ClassResult.noConfusion h
  | .TooManyCrons, _ => fun h => ClassResult.noConfusion h
  | .InvalidCron, _ => fun h => ClassResult.noConfusion h
  | .InvalidBackoff, _ => fun h => ClassResult.noConfusion h
  | .AcquireError, _ => fun h => ClassResult.noConfusion h
  | .Other e, h =>
    RegistryResult.unwrapOr_ne_panicked _ _ (get_error_class_name_no_panic e h)

theorem get_cache_error_no_panic :
    ∀ (x : CacheError), panicSrcCache x = false →
      get_cache_error x ≠ ClassResult.panicked
  | .Sqlite, _ => fun h => ClassResult.noConfusion h
  | .JoinError, _ => fun h => ClassResult.noConfusion h
  | .Resource _, _ => fun h => ClassResult.noConfusion h
  | .Other e, h =>
    RegistryResult.unwrapOr_ne_panicked _ _ (get_error_class_name_no_panic e h)
  | .Io _, _ => fun h => ClassResult.noConfusion h

theorem get_broadcast_channel_error_no_panic :
    ∀ (x : BroadcastChannelError), panicSrcBroadcast x = false →
      get_broadcast_channel_error x ≠ ClassResult.panicked
  | .Resource e, h => by
    have h2 : (get_custom_error_class e).isNone = false := h
    cases hc : get_custom_error_class e with
    | none => rw [hc] at h2; exact absurd h2 (by simp)
    | some s => simp [get_broadcast_channel_error, hc]
  | .MPSCSendError, _ => fun h => ClassResult.noConfusion h
  | .BroadcastSendError, _ => fun h => ClassResult.noConfusion h
  | .Other e, h =>
    RegistryResult.unwrapOr_ne_panicked _ _ (get_error_class_name_no_panic e h)

theorem get_kv_error_no_panic :
    ∀ (x : KvError), panicSrcKv x = false →
      get_kv_error x ≠ ClassResult.panicked
  | .DatabaseHandler e, h =>
    RegistryResult.unwrapOr_ne_panicked _ _ (get_error_class_name_no_panic e h)
  | .Resource e, h =>
    RegistryResult.unwrapOr_ne_panicked _ _ (get_error_class_name_no_panic e h)
  | .Kv e, h =>
    RegistryResult.unwrapOr_ne_panicked _ _ (get_error_class_name_no_panic e h)
  | .TooManyRanges _, _ => fun h => ClassResult.noConfusion h
  | .TooManyEntries _, _ => fun h => ClassResult.noConfusion h
  | .TooManyChecks _, _ => fun h => ClassResult.noConfusion h
  | .TooManyMutations _, _ => fun h => ClassResult.noConfusion h
  | .TooManyKeys _, _ => fun h => ClassResult.noConfusion h
  | .InvalidLimit, _ => fun h => ClassResult.noConfusion h
  | .InvalidBoundaryKey, _ => fun h => ClassResult.noConfusion h
  | .KeyTooLargeToRead _, _ => fun h => ClassResult.noConfusion h
  | .KeyTooLargeToWrite _, _ => fun h => ClassResult.noConfusion h
  | .TotalMutationTooLarge _, _ => fun h => ClassResult.noConfusion h
  | .TotalKeyTooLarge _, _ => fun h => ClassResult.noConfusion h
  | .Io _, _ => fun h => ClassResult.noConfusion h
  | .QueueMessageNotFound, _ => fun h => ClassResult.noConfusion h
  | .StartKeyNotInKeyspace, _ => fun h => ClassResult.noConfusion h
  | .EndKeyNotInKeyspace, _ => fun h => ClassResult.noConfusion h
  | .StartKeyGreaterThanEndKey, _ => fun h => ClassResult.noConfusion h
  | .InvalidCheck .InvalidVersionstamp, _ => fun h => ClassResult.noConfusion h
  | .InvalidCheck (.Io _), _ => fun h => ClassResult.noConfusion h
  | .InvalidMutation .BigInt, _ => fun h => ClassResult.noConfusion h
  | .InvalidMutation (.Io _), _ => fun h => ClassResult.noConfusion h
  | .InvalidMutation .InvalidMutationWithValue, _ => fun h => ClassResult.noConfusion h
  | .InvalidMutation .InvalidMutationWithoutValue, _ => fun h => ClassResult.noConfusion h
  | .InvalidEnqueue _, _ => fun h => ClassResult.noConfusion h
  | .EmptyKey, _ => fun h => ClassResult.noConfusion h
  | .ValueTooLarge _, _ => fun h => ClassResult.noConfusion h
  | .EnqueuePayloadTooLarge _, _ => fun h => ClassResult.noConfusion h
  | .InvalidCursor, _ => fun h => ClassResult.noConfusion h
  | .CursorOutOfBounds, _ => fun h => ClassResult.noConfusion h
  | .InvalidRange, _ => fun h => ClassResult.noConfusion h

theorem get_net_error_no_panic :
    ∀ (x : NetError), panicSrcNet x = false →
      get_net_error x ≠ ClassResult.panicked
  | .ListenerClosed, _ => fun h => ClassResult.noConfusion h
  | .ListenerBusy, _ => fun h => ClassResult.noConfusion h
  | .SocketClosed, _ => fun h => ClassResult.noConfusion h
  | .SocketClosedNotConnected, _ => fun h => ClassResult.noConfusion h
  | .SocketBusy, _ => fun h => ClassResult.noConfusion h
  | .Io _, _ => fun h => ClassResult.noConfusion h
  | .AcceptTaskOngoing, _ => fun h => ClassResult.noConfusion h
  | .RootCertStore e, h =>
    RegistryResult.unwrapOr_ne_panicked _ _ (get_error_class_name_no_panic e h)
  | .Permission e, h =>
    RegistryResult.unwrapOr_ne_panicked _ _ (get_error_class_name_no_panic e h)
  | .Resource e, h =>
    RegistryResult.unwrapOr_ne_panicked _ _ (get_error_class_name_no_panic e h)
  | .NoResolvedAddress, _ => fun h => ClassResult.noConfusion h
  | .AddrParse, _ => fun h => ClassResult.noConfusion h
  | .Map _, _ => fun h => ClassResult.noConfusion h
  | .Canceled, _ => fun h => ClassResult.noConfusion h
  | .DnsNotFound, _ => fun h => ClassResult.noConfusion h
  | .DnsNotConnected, _ => fun h => ClassResult.noConfusion h
  | .DnsTimedOut, _ => fun h => ClassResult.noConfusion h
  | .Dns, _ => fun h => ClassResult.noConfusion h
  | .UnsupportedRecordType, _ => fun h => ClassResult.noConfusion h
  | .InvalidUtf8, _ => fun h => ClassResult.noConfusion h
  | .UnexpectedKeyType, _ => fun h => ClassResult.noConfusion h
  | .InvalidHostname _, _ => fun h => ClassResult.noConfusion h
  | .TcpStreamBusy, _ => fun h => ClassResult.noConfusion h
  | .Rustls, _ => fun h => ClassResult.noConfusion h
  | .Tls _, _ => fun h => ClassResult.noConfusion h
  | .ListenTlsRequiresKey, _ => fun h => ClassResult.noConfusion h
  | .Reunite, _ => fun h => ClassResult.noConfusion h

theorem get_error_class_name_no_panic :
    ∀ (e : AnyError), panicSrcAny e = false →
      get_error_class_name e ≠ RegistryResult.panicked
  | .mk (some _) _, _ => fun h => RegistryResult.noConfusion h
  | .mk none (.gpu _), _ => fun h => RegistryResult.noConfusion h
  | .mk none (.websocket _), _ => fun h => RegistryResult.noConfusion h
  | .mk none (.web _), _ => fun h => RegistryResult.noConfusion h
  | .mk none (.compression _), _ => fun h => RegistryResult.noConfusion h
  | .mk none (.messagePort e), h =>
    ClassResult.toRegistry_ne_panicked _ (get_web_message_port_error_class_no_panic e h)
  | .mk none (.streamResource _), _ => fun h => RegistryResult.noConfusion h
  | .mk none (.blob _), _ => fun h => RegistryResult.noConfusion h
  | .mk none .ir, _ => fun h => RegistryResult.noConfusion h
  | .mk none (.ffiRepr e), h =>
    ClassResult.toRegistry_ne_panicked _ (get_ffi_repr_error_class_no_panic e h)
  | .mk none (.ffiDlfcn e), h =>
    ClassResult.toRegistry_ne_panicked _ (get_ffi_dlfcn_error_class_no_panic e h)
  | .mk none (.ffiStatic e), h =>
    ClassResult.toRegistry_ne_panicked _ (get_ffi_static_error_class_no_panic e h)
  | .mk none (.ffiCallback e), h =>
    ClassResult.toRegistry_ne_panicked _ (get_ffi_callback_error_class_no_panic e h)
  | .mk none (.ffiCall e), h =>
    ClassResult.toRegistry_ne_panicked _ (get_ffi_call_error_class_no_panic e h)
  | .mk none (.tls _), _ => fun h => RegistryResult.noConfusion h
  | .mk none (.cron e), h =>
    ClassResult.toRegistry_ne_panicked _ (get_cron_error_class_no_panic e h)
  | .mk none (.canvas _), _ => fun h => RegistryResult.noConfusion h
  | .mk none (.cache e), h =>
    ClassResult.toRegistry_ne_panicked _ (get_cache_error_no_panic e h)
  | .mk none (.kv e), h =>
    ClassResult.toRegistry_ne_panicked _ (get_kv_error_no_panic e h)
  | .mk none (.net e), h =>
    ClassResult.toRegistry_ne_panicked _ (get_net_error_no_panic e h)
  | .mk none (.netMap _), _ => fun h => RegistryResult.noConfusion h
  | .mk none (.broadcastChannel e), h =>
    ClassResult.toRegistry_ne_panicked _ (get_broadcast_channel_error_no_panic e h)
  | .mk none (.webStorage .ContextNotSupported), _ => fun h => RegistryResult.noConfusion h
  | .mk none (.webStorage .Sqlite), h => absurd h (by decide)
  | .mk none (.webStorage (.Io _)), _ => fun h => RegistryResult.noConfusion h
  | .mk none (.webStorage .StorageExceeded), _ => fun h => RegistryResult.noConfusion h
  | .mk none .urlPattern, _ => fun h => RegistryResult.noConfusion h
  | .mk none (.dlopen _), _ => fun h => RegistryResult.noConfusion h
  | .mk none .hyper, _ => fun h => RegistryResult.noConfusion h
  | .mk none .hyperUtil, _ => fun h => RegistryResult.noConfusion h
  | .mk none .hyperV014, _ => fun h => RegistryResult.noConfusion h
  | .mk none .arcHyperV014, _ => fun h => RegistryResult.noConfusion h
  | .mk none .canceled, _ => fun h => RegistryResult.noConfusion h
  | .mk none (.envVar _), _ => fun h => RegistryResult.noConfusion h
  | .mk none (.io _), _ => fun h => RegistryResult.noConfusion h
  | .mk none (.moduleResolution _), _ => fun h => RegistryResult.noConfusion h
  | .mk none (.notify _), _ => fun h => RegistryResult.noConfusion h
  | .mk none (.regex _), _ => fun h => RegistryResult.noConfusion h
  | .mk none (.serdeJson _), _ => fun h => RegistryResult.noConfusion h
  | .mk none (.urlParse _), _ => fun h => RegistryResult.noConfusion h
  | .mk none .sqliteBackend, _ => fun h => RegistryResult.noConfusion h
  | .mk none (.nix .ECHILD), _ => fun h => RegistryResult.noConfusion h
  | .mk none (.nix .EINVAL), _ => fun h => RegistryResult.noConfusion h
  | .mk none (.nix .ENOENT), _ => fun h => RegistryResult.noConfusion h
  | .mk none (.nix .ENOTTY), _ => fun h => RegistryResult.noConfusion h
  | .mk none (.nix .EPERM), _ => fun h => RegistryResult.noConfusion h
  | .mk none (.nix .ESRCH), _ => fun h => RegistryResult.noConfusion h
  | .mk none (.nix .ELOOP), _ => fun h => RegistryResult.noConfusion h
  | .mk none (.nix .ENOTDIR), _ => fun h => RegistryResult.noConfusion h
  | .mk none (.nix .ENETUNREACH), _ => fun h => RegistryResult.noConfusion h
  | .mk none (.nix .EISDIR), _ => fun h => RegistryResult.noConfusion h
  | .mk none (.nix .UnknownErrno), _ => fun h => RegistryResult.noConfusion h
  | .mk none (.nix .ENOTSUP), h => absurd h (by decide)
  | .mk none (.nix (.otherErrno _)), _ => fun h => RegistryResult.noConfusion h
  | .mk none (.unknown _), _ => fun h => RegistryResult.noConfusion h

end

theorem tag_mem_of_lit {t s : String} (hmem : t ∈ classTagVocabulary)
    (heq : ClassResult.tag t = ClassResult.tag s) : s ∈ classTagVocabulary := by
  injection heq with h2
  subst h2
  exact hmem

theorem rtag_mem_of_lit {t s : String} (hmem : t ∈ classTagVocabulary)
    (heq : RegistryResult.tag t = RegistryResult.tag s) : s ∈ classTagVocabulary := by
  injection heq with h2
  subst h2
  exact hmem

mutual

theorem get_web_message_port_error_class_mem_vocab :
    ∀ (x : MessagePortError), hookFreeMessagePort x = true →
      ∀ s, get_web_message_port_error_class x = ClassResult.tag s →
        s ∈ classTagVocabulary
  | .InvalidTransfer, _ => fun _ heq => tag_mem_of_lit (by decide) heq
  | .NotReady, _ => fun _ heq => tag_mem_of_lit (by decide) heq
  | .TransferSelf, _ => fun _ heq => tag_mem_of_lit (by decide) heq
  | .Canceled, _ => fun _ heq =>
    tag_mem_of_lit (get_io_error_class_mem_vocab canceledIoError) heq
  | .Resource e, h =>
    RegistryResult.unwrapOr_mem_vocab _ (get_error_class_name_mem_vocab e h)

theorem get_ffi_repr_error_class_mem_vocab :
    ∀ (x : ReprError), hookFreeRepr x = true →
      ∀ s, get_ffi_repr_error_class x = ClassResult.tag s →
        s ∈ classTagVocabulary
  | .InvalidOffset, _ => fun _ heq => tag_mem_of_lit (by decide) heq
  | .InvalidArrayBuffer, _ => fun _ heq => tag_mem_of_lit (by decide) heq
  | .DestinationLengthTooShort, _ => fun _ heq => tag_mem_of_lit (by decide) heq
  | .InvalidCString, _ => fun _ heq => tag_mem_of_lit (by decide) heq
  | .CStringTooLong, _ => fun _ heq => tag_mem_of_lit (by decide) heq
  | .InvalidBool, _ => fun _ heq => tag_mem_of_lit (by decide) heq
  | .InvalidU8, _ => fun _ heq => tag_mem_of_lit (by decide) heq
  | .InvalidI8, _ => fun _ heq => tag_mem_of_lit (by decide) heq
  | .InvalidU16, _ => fun _ heq => tag_mem_of_lit (by decide) heq
  | .InvalidI16, _ => fun _ heq => tag_mem_of_lit (by decide) heq
  | .InvalidU32, _ => fun _ heq => tag_mem_of_lit (by decide) heq
  | .InvalidI32, _ => fun _ heq => tag_mem_of_lit (by decide) heq
  | .InvalidU64, _ => fun _ heq => tag_mem_of_lit (by decide) heq
  | .InvalidI64, _ => fun _ heq => tag_mem_of_lit (by decide) heq
  | .InvalidF32, _ => fun _ heq => tag_mem_of_lit (by decide) heq
  | .InvalidF64, _ => fun _ heq => tag_mem_of_lit (by decide) heq
  | .InvalidPointer, _ => fun _ heq => tag_mem_of_lit (by decide) heq
  | .Permission e, h =>
    RegistryResult.unwrapOr_mem_vocab _ (get_error_class_name_mem_vocab e h)

theorem get_ffi_dlfcn_error_class_mem_vocab :
    ∀ (x : DlfcnError), hookFreeDlfcn x = true →
      ∀ s, get_ffi_dlfcn_error_class x = ClassResult.tag s →
        s ∈ classTagVocabulary
  | .RegisterSymbol, _ => fun _ heq => tag_mem_of_lit (by decide) heq
  | .Dlopen, _ => fun _ heq => tag_mem_of_lit (by decide) heq
  | .Permission e, h =>
    RegistryResult.unwrapOr_mem_vocab _ (get_error_class_name_mem_vocab e h)
  | .Other e, h =>
    RegistryResult.unwrapOr_mem_vocab _ (get_error_class_name_mem_vocab e h)

theorem get_ffi_static_error_class_mem_vocab :
    ∀ (x : StaticError), hookFreeStatic x = true →
      ∀ s, get_ffi_static_error_class x = ClassResult.tag s →
        s ∈ classTagVocabulary
  | .Dlfcn e, h => get_ffi_dlfcn_error_class_mem_vocab e h
  | .InvalidTypeVoid, _ => fun _ heq => tag_mem_of_lit (by decide) heq
  | .InvalidTypeStruct, _ => fun _ heq => tag_mem_of_lit (by decide) heq
  | .Resource e, h =>
    RegistryResult.unwrapOr_mem_vocab _ (get_error_class_name_mem_vocab e h)

theorem get_ffi_callback_error_class_mem_vocab :
    ∀ (x : CallbackError), hookFreeCallback x = true →
      ∀ s, get_ffi_callback_error_class x = ClassResult.tag s →
        s ∈ classTagVocabulary
  | .Resource e, h =>
    RegistryResult.unwrapOr_mem_vocab _ (get_error_class_name_mem_vocab e h)
  | .Other e, h =>
    RegistryResult.unwrapOr_mem_vocab _ (get_error_class_name_mem_vocab e h)
  | .Permission e, h =>
    RegistryResult.unwrapOr_mem_vocab _ (get_error_class_name_mem_vocab e h)

theorem get_ffi_call_error_class_mem_vocab :
    ∀ (x : CallError), hookFreeCall x = true →
      ∀ s, get_ffi_call_error_class x = ClassResult.tag s →
        s ∈ classTagVocabulary
  | .IR, _ => fun _ heq => tag_mem_of_lit (by decide) heq
  | .NonblockingCallFailure, _ => fun _ heq => tag_mem_of_lit (by decide) heq
  | .InvalidSymbol, _ => fun _ heq => tag_mem_of_lit (by decide) heq
  | .Permission e, h =>
    RegistryResult.unwrapOr_mem_vocab _ (get_error_class_name_mem_vocab e h)
  | .Callback e, h => get_ffi_callback_error_class_mem_vocab e h

theorem get_cron_error_class_mem_vocab :
    ∀ (x : CronError), hookFreeCron x = true →
      ∀ s, get_cron_error_class x = ClassResult.tag s →
        s ∈ classTagVocabulary
  | .Resource (.mk none _), _ => fun _ heq =>
    tag_mem_of_lit (t := "Error") (by decide) heq
  | .Resource (.mk (some _) _), h => Bool.noConfusion h
  | .NameExceeded _, _ => fun _ heq => tag_mem_of_lit (by decide) heq
  | .NameInvalid, _ => fun _ heq => tag_mem_of_lit (by decide) heq
  | .AlreadyExists, _ => fun _ heq => tag_mem_of_lit (by decide) heq
  | .TooManyCrons, _ => fun _ heq => tag_mem_of_lit (by decide) heq
  | .InvalidCron, _ => fun _ heq => tag_mem_of_lit (by decide) heq
  | .InvalidBackoff, _ => fun _ heq => tag_mem_of_lit (by decide) heq
  | .AcquireError, _ => fun _ heq => tag_mem_of_lit (by decide) heq
  | .Other e, h =>
    RegistryResult.unwrapOr_mem_vocab _ (get_error_class_name_mem_vocab e h)

theorem get_cache_error_mem_vocab :
    ∀ (x : CacheError), hookFreeCache x = true →
      ∀ s, get_cache_error x = ClassResult.tag s →
        s ∈ classTagVocabulary
  | .Sqlite, _ => fun _ heq => tag_mem_of_lit (by decide) heq
  | .JoinError, _ => fun _ heq => tag_mem_of_lit (by decide) heq
  | .Resource (.mk none _), _ => fun _ heq =>
    tag_mem_of_lit (t := "Error") (by decide) heq
  | .Resource (.mk (some _) _), h => Bool.noConfusion h
  | .Other e, h =>
    RegistryResult.unwrapOr_mem_vocab _ (get_error_class_name_mem_vocab e h)
  | .Io e, _ => fun _ heq =>
    tag_mem_of_lit (get_io_error_class_mem_vocab e) heq

theorem get_broadcast_channel_error_mem_vocab :
    ∀ (x : BroadcastChannelError), hookFreeBroadcast x = true →
      ∀ s, get_broadcast_channel_error x = ClassResult.tag s →
        s ∈ classTagVocabulary
  | .Resource (.mk none _), _ => fun _ heq => ClassResult.noConfusion heq
  | .Resource (.mk (some _) _), h => Bool.noConfusion h
  | .MPSCSendError, _ => fun _ heq => tag_mem_of_lit (by decide) heq
  | .BroadcastSendError, _ => fun _ heq => tag_mem_of_lit (by decide) heq
  | .Other e, h =>
    RegistryResult.unwrapOr_mem_vocab _ (get_error_class_name_mem_vocab e h)

theorem get_kv_error_mem_vocab :
    ∀ (x : KvError), hookFreeKv x = true →
      ∀ s, get_kv_error x = ClassResult.tag s →
        s ∈ classTagVocabulary
  | .DatabaseHandler e, h =>
    RegistryResult.unwrapOr_mem_vocab _ (get_error_class_name_mem_vocab e h)
  | .Resource e, h =>
    RegistryResult.unwrapOr_mem_vocab _ (get_error_class_name_mem_vocab e h)
  | .Kv e, h =>
    RegistryResult.unwrapOr_mem_vocab _ (get_error_class_name_mem_vocab e h)
  | .TooManyRanges _, _ => fun _ heq => tag_mem_of_lit (by decide) heq
  | .TooManyEntries _, _ => fun _ heq => tag_mem_of_lit (by decide) heq
  | .TooManyChecks _, _ => fun _ heq => tag_mem_of_lit (by decide) heq
  | .TooManyMutations _, _ => fun _ heq => tag_mem_of_lit (by decide) heq
  | .TooManyKeys _, _ => fun _ heq => tag_mem_of_lit (by decide) heq
  | .InvalidLimit, _ => fun _ heq => tag_mem_of_lit (by decide) heq
  | .InvalidBoundaryKey, _ => fun _ heq => tag_mem_of_lit (by decide) heq
  | .KeyTooLargeToRead _, _ => fun _ heq => tag_mem_of_lit (by decide) heq
  | .KeyTooLargeToWrite _, _ => fun _ heq => tag_mem_of_lit (by decide) heq
  | .TotalMutationTooLarge _, _ => fun _ heq => tag_mem_of_lit (by decide) heq
  | .TotalKeyTooLarge _, _ => fun _ heq => tag_mem_of_lit (by decide) heq
  | .Io e, _ => fun _ heq => tag_mem_of_lit (get_io_error_class_mem_vocab e) heq
  | .QueueMessageNotFound, _ => fun _ heq => tag_mem_of_lit (by decide) heq
  | .StartKeyNotInKeyspace, _ => fun _ heq => tag_mem_of_lit (by decide) heq
  | .EndKeyNotInKeyspace, _ => fun _ heq => tag_mem_of_lit (by decide) heq
  | .StartKeyGreaterThanEndKey, _ => fun _ heq => tag_mem_of_lit (by decide) heq
  | .InvalidCheck .InvalidVersionstamp, _ => fun _ heq => tag_mem_of_lit (by decide) heq
  | .InvalidCheck (.Io e), _ => fun _ heq =>
    tag_mem_of_lit (get_io_error_class_mem_vocab e) heq
  | .InvalidMutation .BigInt, _ => fun _ heq => tag_mem_of_lit (by decide) heq
  | .InvalidMutation (.Io e), _ => fun _ heq =>
    tag_mem_of_lit (get_io_error_class_mem_vocab e) heq
  | .InvalidMutation .InvalidMutationWithValue, _ => fun _ heq =>
    tag_mem_of_lit (by decide) heq
  | .InvalidMutation .InvalidMutationWithoutValue, _ => fun _ heq =>
    tag_mem_of_lit (by decide) heq
  | .InvalidEnqueue e, _ => fun _ heq =>
    tag_mem_of_lit (get_io_error_class_mem_vocab e) heq
  | .EmptyKey, _ => fun _ heq => tag_mem_of_lit (by decide) heq
  | .ValueTooLarge _, _ => fun _ heq => tag_mem_of_lit (by decide) heq
  | .EnqueuePayloadTooLarge _, _ => fun _ heq => tag_mem_of_lit (by decide) heq
  | .InvalidCursor, _ => fun _ heq => tag_mem_of_lit (by decide) heq
  | .CursorOutOfBounds, _ => fun _ heq => tag_mem_of_lit (by decide) heq
  | .InvalidRange, _ => fun _ heq => tag_mem_of_lit (by decide) heq

theorem get_net_error_mem_vocab :
    ∀ (x : NetError), hookFreeNet x = true →
      ∀ s, get_net_error x = ClassResult.tag s →
        s ∈ classTagVocabulary
  | .ListenerClosed, _ => fun _ heq => tag_mem_of_lit (by decide) heq
  | .ListenerBusy, _ => fun _ heq => tag_mem_of_lit (by decide) heq
  | .SocketClosed, _ => fun _ heq => tag_mem_of_lit (by decide) heq
  | .SocketClosedNotConnected, _ => fun _ heq => tag_mem_of_lit (by decide) heq
  | .SocketBusy, _ => fun _ heq => tag_mem_of_lit (by decide) heq
  | .Io e, _ => fun _ heq => tag_mem_of_lit (get_io_error_class_mem_vocab e) heq
  | .AcceptTaskOngoing, _ => fun _ heq => tag_mem_of_lit (by decide) heq
  | .RootCertStore e, h =>
    RegistryResult.unwrapOr_mem_vocab _ (get_error_class_name_mem_vocab e h)
  | .Permission e, h =>
    RegistryResult.unwrapOr_mem_vocab _ (get_error_class_name_mem_vocab e h)
  | .Resource e, h =>
    RegistryResult.unwrapOr_mem_vocab _ (get_error_class_name_mem_vocab e h)
  | .NoResolvedAddress, _ => fun _ heq => tag_mem_of_lit (by decide) heq
  | .AddrParse, _ => fun _ heq => tag_mem_of_lit (by decide) heq
  | .Map e, _ => fun _ heq => tag_mem_of_lit (get_net_map_error_mem_vocab e) heq
  | .Canceled, _ => fun _ heq =>
    tag_mem_of_lit (get_io_error_class_mem_vocab canceledIoError) heq
  | .DnsNotFound, _ => fun _ heq => tag_mem_of_lit (by decide) heq
  | .DnsNotConnected, _ => fun _ heq => tag_mem_of_lit (by decide) heq
  | .DnsTimedOut, _ => fun _ heq => tag_mem_of_lit (by decide) heq
  | .Dns, _ => fun _ heq => tag_mem_of_lit (by decide) heq
  | .UnsupportedRecordType, _ => fun _ heq => tag_mem_of_lit (by decide) heq
  | .InvalidUtf8, _ => fun _ heq => tag_mem_of_lit (by decide) heq
  | .UnexpectedKeyType, _ => fun _ heq => tag_mem_of_lit (by decide) heq
  | .InvalidHostname _, _ => fun _ heq => tag_mem_of_lit (by decide) heq
  | .TcpStreamBusy, _ => fun _ heq => tag_mem_of_lit (by decide) heq
  | .Rustls, _ => fun _ heq => tag_mem_of_lit (by decide) heq
  | .Tls e, _ => fun _ heq => tag_mem_of_lit (get_tls_error_class_mem_vocab e) heq
  | .ListenTlsRequiresKey, _ => fun _ heq => tag_mem_of_lit (by decide) heq
  | .Reunite, _ => fun _ heq => tag_mem_of_lit (by decide) heq

theorem get_error_class_name_mem_vocab :
    ∀ (e : AnyError), hookFreeAny e = true →
      ∀ s, get_error_class_name e = RegistryResult.tag s →
        s ∈ classTagVocabulary
  | .mk (some _) _, h => Bool.noConfusion h
  | .mk none (.gpu _), h => Bool.noConfusion h
  | .mk none (.websocket _), h => Bool.noConfusion h
  | .mk none (.web e), _ => fun _ heq =>
    rtag_mem_of_lit (get_web_error_class_mem_vocab e) heq
  | .mk none (.compression e), _ => fun _ heq =>
    rtag_mem_of_lit (get_web_compression_error_class_mem_vocab e) heq
  | .mk none (.messagePort e), h =>
    ClassResult.toRegistry_mem_vocab _ (get_web_message_port_error_class_mem_vocab e h)
  | .mk none (.streamResource e), _ => fun _ heq =>
    rtag_mem_of_lit (get_web_stream_resource_error_class_mem_vocab e) heq
  | .mk none (.blob e), _ => fun _ heq =>
    rtag_mem_of_lit (get_web_blob_error_class_mem_vocab e) heq
  | .mk none .ir, _ => fun _ heq => rtag_mem_of_lit (by decide) heq
  | .mk none (.ffiRepr e), h =>
    ClassResult.toRegistry_mem_vocab _ (get_ffi_repr_error_class_mem_vocab e h)
  | .mk none (.ffiDlfcn e), h =>
    ClassResult.toRegistry_mem_vocab _ (get_ffi_dlfcn_error_class_mem_vocab e h)
  | .mk none (.ffiStatic e), h =>
    ClassResult.toRegistry_mem_vocab _ (get_ffi_static_error_class_mem_vocab e h)
  | .mk none (.ffiCallback e), h =>
    ClassResult.toRegistry_mem_vocab _ (get_ffi_callback_error_class_mem_vocab e h)
  | .mk none (.ffiCall e), h =>
    ClassResult.toRegistry_mem_vocab _ (get_ffi_call_error_class_mem_vocab e h)
  | .mk none (.tls e), _ => fun _ heq =>
    rtag_mem_of_lit (get_tls_error_class_mem_vocab e) heq
  | .mk none (.cron e), h =>
    ClassResult.toRegistry_mem_vocab _ (get_cron_error_class_mem_vocab e h)
  | .mk none (.canvas e), _ => fun _ heq =>
    rtag_mem_of_lit (get_canvas_error_mem_vocab e) heq
  | .mk none (.cache e), h =>
    ClassResult.toRegistry_mem_vocab _ (get_cache_error_mem_vocab e h)
  | .mk none (.kv e), h =>
    ClassResult.toRegistry_mem_vocab _ (get_kv_error_mem_vocab e h)
  | .mk none (.net e), h =>
    ClassResult.toRegistry_mem_vocab _ (get_net_error_mem_vocab e h)
  | .mk none (.netMap e), _ => fun _ heq =>
    rtag_mem_of_lit (get_net_map_error_mem_vocab e) heq
  | .mk none (.broadcastChannel e), h =>
    ClassResult.toRegistry_mem_vocab _ (get_broadcast_channel_error_mem_vocab e h)
  | .mk none (.webStorage e), _ =>
    ClassResult.toRegistry_mem_vocab _ (get_webstorage_class_name_mem_vocab e)
  | .mk none .urlPattern, _ => fun _ heq => rtag_mem_of_lit (by decide) heq
  | .mk none (.dlopen e), _ => fun _ heq =>
    rtag_mem_of_lit (get_dlopen_error_class_mem_vocab e) heq
  | .mk none .hyper, _ => fun _ heq => rtag_mem_of_lit (by decide) heq
  | .mk none .hyperUtil, _ => fun _ heq => rtag_mem_of_lit (by decide) heq
  | .mk none .hyperV014, _ => fun _ heq => rtag_mem_of_lit (by decide) heq
  | .mk none .arcHyperV014, _ => fun _ heq => rtag_mem_of_lit (by decide) heq
  | .mk none .canceled, _ => fun _ heq =>
    rtag_mem_of_lit (get_io_error_class_mem_vocab canceledIoError) heq
  | .mk none (.envVar e), _ => fun _ heq =>
    rtag_mem_of_lit (get_env_var_error_class_mem_vocab e) heq
  | .mk none (.io e), _ => fun _ heq =>
    rtag_mem_of_lit (get_io_error_class_mem_vocab e) heq
  | .mk none (.moduleResolution e), _ => fun _ heq =>
    rtag_mem_of_lit (get_module_resolution_error_class_mem_vocab e) heq
  | .mk none (.notify e), _ => fun _ heq =>
    rtag_mem_of_lit (get_notify_error_class_mem_vocab e) heq
  | .mk none (.regex e), _ => fun _ heq =>
    rtag_mem_of_lit (get_regex_error_class_mem_vocab e) heq
  | .mk none (.serdeJson e), _ => fun _ heq =>
    rtag_mem_of_lit (get_serde_json_error_class_mem_vocab e) heq
  | .mk none (.urlParse e), _ => fun _ heq =>
    rtag_mem_of_lit (get_url_parse_error_class_mem_vocab e) heq
  | .mk none .sqliteBackend, _ => fun _ heq => rtag_mem_of_lit (by decide) heq
  | .mk none (.nix e), _ =>
    ClassResult.toRegistry_mem_vocab _ (get_nix_error_class_mem_vocab e)
  | .mk none (.unknown _), _ => fun _ heq => RegistryResult.noConfusion heq

end

theorem get_error_class_name_ne_unclassified (e : AnyError)
    (h : e.concrete.isUnknown = false) :
    get_error_class_name e ≠ RegistryResult.unclassified := by
  obtain ⟨cc, k⟩ := e
  cases cc with
  | some cls => simp [get_error_class_name]
  | none =>
    cases k <;>
      first
        | exact Bool.noConfusion h
        | exact ClassResult.toRegistry_ne_unclassified _
        | simp [get_error_class_name]

/-- Claim C1, counterexample: the web-storage `Sqlite` variant is a handled
Domain Error Type variant that is not the POSIX errno variant, yet
classifying it panics (the classifier's arm is `todo!()`), so classification
does not return a tag for every variant with only that single exception. -/
theorem classify_webstorage_sqlite_panics :
    get_error_class_name
      (AnyError.mk none (ConcreteError.webStorage WebStorageError.Sqlite))
      = RegistryResult.panicked := rfl

/-- Claim C1 (amended): for every error value of a handled Domain Error
Type, classification returns some tag and never panics, except on values
involving one of three panic sources: the nix `ENOTSUP` errno variant
asserted unreachable, the web-storage `Sqlite` variant left as a `todo!()`,
and a broadcast-channel `Resource` variant whose wrapped error carries no
custom class (an `unwrap` on `None`). -/
theorem classify_total_no_panic (e : AnyError)
    (h1 : panicSrcAny e = false)
    (h2 : e.concrete.isUnknown = false) :
    ∃ s, get_error_class_name e = RegistryResult.tag s := by
  have hp := get_error_class_name_no_panic e h1
  have hu := get_error_class_name_ne_unclassified e h2
  cases hr : get_error_class_name e with
  | tag s => exact ⟨s, rfl⟩
  | unclassified => exact absurd hr hu
  | panicked => exact absurd hr hp

/-- Witness for C1 (amended): a networking error wrapping an OS not-found
condition contains no panic source and is of a handled type, so it
classifies to a tag. -/
theorem classify_total_no_panic_witness :
    ∃ s, get_error_class_name
      (AnyError.mk none (ConcreteError.net (NetError.Io ⟨IoErrorKind.NotFound⟩)))
      = RegistryResult.tag s :=
  classify_total_no_panic
    (AnyError.mk none (ConcreteError.net (NetError.Io ⟨IoErrorKind.NotFound⟩)))
    rfl rfl

/-- Claim C2: for every error value carrying a custom/resource-supplied
classification, whatever its concrete type (in particular one matching a
built-in Domain Classifier), the registry returns the custom tag: the
custom-class hook is consulted before every built-in check. -/
theorem custom_class_precedence (cls : String) (k : ConcreteError) :
    get_error_class_name (AnyError.mk (some cls) k) = RegistryResult.tag cls :=
  rfl

/-- Claim C3: an error value carrying no custom class and whose concrete
type is recognized by no built-in check yields `unclassified` (the Rust
`None`) and does not panic. -/
theorem unknown_type_unclassified (e : AnyError)
    (h1 : get_custom_error_class e = none)
    (h2 : e.concrete.isUnknown = true) :
    get_error_class_name e = RegistryResult.unclassified := by
  obtain ⟨cc, k⟩ := e
  have hcc : cc = none := h1
  subst hcc
  cases k <;> first | rfl | exact Bool.noConfusion h2

/-- Witness for C3: a previously-unseen error type with no custom class is
unclassified. -/
theorem unknown_type_unclassified_witness :
    get_error_class_name
      (AnyError.mk none (ConcreteError.unknown "SomeFutureSubsystemError"))
      = RegistryResult.unclassified :=
  unknown_type_unclassified
    (AnyError.mk none (ConcreteError.unknown "SomeFutureSubsystemError"))
    rfl rfl

/-- Claim C4: an OS permission-denied I/O condition wrapped inside (a) the
networking error's I/O variant, (b) the FFI representation error's
permission-wrapping variant, and (c) the key-value store error's I/O
variant classifies as `PermissionDenied` in each case. -/
theorem permission_denied_delegation :
    get_error_class_name
      (AnyError.mk none (ConcreteError.net (NetError.Io ⟨IoErrorKind.PermissionDenied⟩)))
      = RegistryResult.tag "PermissionDenied" ∧
    get_error_class_name
      (AnyError.mk none (ConcreteError.ffiRepr (ReprError.Permission
        (AnyError.mk none (ConcreteError.io ⟨IoErrorKind.PermissionDenied⟩)))))
      = RegistryResult.tag "PermissionDenied" ∧
    get_error_class_name
      (AnyError.mk none (ConcreteError.kv (KvError.Io ⟨IoErrorKind.PermissionDenied⟩)))
      = RegistryResult.tag "PermissionDenied" :=
  ⟨rfl, rfl, rfl⟩

/-- Claim C5: the OS I/O classifier maps invalid-input to `TypeError` (not
`InvalidData`), maps the remaining modeled kinds to their like-named tags
(with the `Other` kind to the generic `Error`), and on a kind not modeled
as a distinct code matches its reported text, routing the four named kinds
to their tags and everything else to `Error`. -/
theorem io_class_mapping (s : String)
    (h1 : s ≠ "FilesystemLoop") (h2 : s ≠ "IsADirectory")
    (h3 : s ≠ "NetworkUnreachable") (h4 : s ≠ "NotADirectory") :
    get_io_error_class ⟨IoErrorKind.nonExhaustive s⟩ = "Error" ∧
    get_io_error_class ⟨IoErrorKind.InvalidInput⟩ = "TypeError" ∧
    get_io_error_class ⟨IoErrorKind.NotFound⟩ = "NotFound" ∧
    get_io_error_class ⟨IoErrorKind.PermissionDenied⟩ = "PermissionDenied" ∧
    get_io_error_class ⟨IoErrorKind.ConnectionRefused⟩ = "ConnectionRefused" ∧
    get_io_error_class ⟨IoErrorKind.ConnectionReset⟩ = "ConnectionReset" ∧
    get_io_error_class ⟨IoErrorKind.ConnectionAborted⟩ = "ConnectionAborted" ∧
    get_io_error_class ⟨IoErrorKind.NotConnected⟩ = "NotConnected" ∧
    get_io_error_class ⟨IoErrorKind.AddrInUse⟩ = "AddrInUse" ∧
    get_io_error_class ⟨IoErrorKind.AddrNotAvailable⟩ = "AddrNotAvailable" ∧
    get_io_error_class ⟨IoErrorKind.BrokenPipe⟩ = "BrokenPipe" ∧
    get_io_error_class ⟨IoErrorKind.AlreadyExists⟩ = "AlreadyExists" ∧
    get_io_error_class ⟨IoErrorKind.InvalidData⟩ = "InvalidData" ∧
    get_io_error_class ⟨IoErrorKind.TimedOut⟩ = "TimedOut" ∧
    get_io_error_class ⟨IoErrorKind.Interrupted⟩ = "Interrupted" ∧
    get_io_error_class ⟨IoErrorKind.WriteZero⟩ = "WriteZero" ∧
    get_io_error_class ⟨IoErrorKind.UnexpectedEof⟩ = "UnexpectedEof" ∧
    get_io_error_class ⟨IoErrorKind.WouldBlock⟩ = "WouldBlock" ∧
    get_io_error_class ⟨IoErrorKind.Other⟩ = "Error" ∧
    get_io_error_class ⟨IoErrorKind.nonExhaustive "FilesystemLoop"⟩ = "FilesystemLoop" ∧
    get_io_error_class ⟨IoErrorKind.nonExhaustive "IsADirectory"⟩ = "IsADirectory" ∧
    get_io_error_class ⟨IoErrorKind.nonExhaustive "NetworkUnreachable"⟩ = "NetworkUnreachable" ∧
    get_io_error_class ⟨IoErrorKind.nonExhaustive "NotADirectory"⟩ = "NotADirectory" := by
  refine ⟨?_, rfl, rfl, rfl, rfl, rfl, rfl, rfl, rfl, rfl, rfl, rfl, rfl,
    rfl, rfl, rfl, rfl, rfl, rfl, rfl, rfl, rfl, rfl⟩
  simp only [get_io_error_class]

/-- Witness for C5: a kind reported only as the text "Unsupported" falls
back to the generic `Error` tag. -/
theorem io_class_mapping_witness :
    get_io_error_class ⟨IoErrorKind.nonExhaustive "Unsupported"⟩ = "Error" :=
  (io_class_mapping "Unsupported" (by decide) (by decide) (by decide)
    (by decide)).1

/-- Claim C6: the TLS classifier maps every certificate/key problem variant
(including certificates-not-found) to `InvalidData`, delegates the
file-to-cert-store I/O variant to the OS I/O classifier, and maps the
remaining TLS-library failure to the generic `Error`. -/
theorem tls_class_mapping :
    get_tls_error_class TlsError.CertInvalid = "InvalidData" ∧
    get_tls_error_class TlsError.CertsNotFound = "InvalidData" ∧
    get_tls_error_class TlsError.KeysNotFound = "InvalidData" ∧
    get_tls_error_class TlsError.KeyDecode = "InvalidData" ∧
    (∀ e : IoError, get_tls_error_class (TlsError.UnableAddPemFileToCert e)
      = get_io_error_class e) ∧
    get_tls_error_class TlsError.Rustls = "Error" :=
  ⟨rfl, rfl, rfl, rfl, fun _ => rfl, rfl⟩

/-- Claim C7: the key-value classifier maps every quantity-limit-exceeded
variant to `TypeError`, delegates the I/O-wrapping variants to the OS I/O
classifier, and applies the same policy one level deep to nested check and
mutation sub-errors. -/
theorem kv_class_mapping :
    (∀ n, get_kv_error (KvError.TooManyRanges n) = ClassResult.tag "TypeError") ∧
    (∀ n, get_kv_error (KvError.TooManyEntries n) = ClassResult.tag "TypeError") ∧
    (∀ n, get_kv_error (KvError.TooManyChecks n) = ClassResult.tag "TypeError") ∧
    (∀ n, get_kv_error (KvError.TooManyMutations n) = ClassResult.tag "TypeError") ∧
    (∀ n, get_kv_error (KvError.TooManyKeys n) = ClassResult.tag "TypeError") ∧
    (∀ n, get_kv_error (KvError.KeyTooLargeToRead n) = ClassResult.tag "TypeError") ∧
    (∀ n, get_kv_error (KvError.KeyTooLargeToWrite n) = ClassResult.tag "TypeError") ∧
    (∀ n, get_kv_error (KvError.ValueTooLarge n) = ClassResult.tag "TypeError") ∧
    (∀ n, get_kv_error (KvError.TotalMutationTooLarge n) = ClassResult.tag "TypeError") ∧
    (∀ n, get_kv_error (KvError.TotalKeyTooLarge n) = ClassResult.tag "TypeError") ∧
    (∀ e, get_kv_error (KvError.Io e) = ClassResult.tag (get_io_error_class e)) ∧
    (∀ e, get_kv_error (KvError.InvalidEnqueue e)
      = ClassResult.tag (get_io_error_class e)) ∧
    get_kv_error (KvError.InvalidCheck KvCheckError.InvalidVersionstamp)
      = ClassResult.tag "TypeError" ∧
    (∀ e, get_kv_error (KvError.InvalidCheck (KvCheckError.Io e))
      = ClassResult.tag (get_io_error_class e)) ∧
    get_kv_error (KvError.InvalidMutation KvMutationError.InvalidMutationWithValue)
      = ClassResult.tag "TypeError" ∧
    get_kv_error (KvError.InvalidMutation KvMutationError.InvalidMutationWithoutValue)
      = ClassResult.tag "TypeError" ∧
    (∀ e, get_kv_error (KvError.InvalidMutation (KvMutationError.Io e))
      = ClassResult.tag (get_io_error_class e)) :=
  ⟨fun _ => rfl, fun _ => rfl, fun _ => rfl, fun _ => rfl, fun _ => rfl,
    fun _ => rfl, fun _ => rfl, fun _ => rfl, fun _ => rfl, fun _ => rfl,
    fun _ => rfl, fun _ => rfl, rfl, fun _ => rfl, rfl, rfl, fun _ => rfl⟩

/-- Claim C8: the structured-data parse classifier branches on the reported
category: syntax yields `SyntaxError`, data yields `InvalidData`,
end-of-input yields `UnexpectedEof`, and the I/O category delegates to the
OS I/O classifier. -/
theorem serde_json_class_mapping :
    get_serde_json_error_class SerdeJsonError.Syntax = "SyntaxError" ∧
    get_serde_json_error_class SerdeJsonError.Data = "InvalidData" ∧
    get_serde_json_error_class SerdeJsonError.Eof = "UnexpectedEof" ∧
    (∀ e, get_serde_json_error_class (SerdeJsonError.Io e)
      = get_io_error_class e) :=
  ⟨rfl, rfl, rfl, fun _ => rfl⟩

/-- Claim C9, counterexample: the custom/resource-supplied hook passes an
arbitrary resource-chosen string through the registry, so an input can make
the registry produce a string outside the fixed vocabulary. -/
theorem custom_tag_escapes_vocabulary :
    get_error_class_name
      (AnyError.mk (some "NotAKnownTag") (ConcreteError.unknown "X"))
      = RegistryResult.tag "NotAKnownTag" ∧
    "NotAKnownTag" ∉ classTagVocabulary :=
  ⟨rfl, by decide⟩

/-- Claim C9 (amended): for every error value none of whose tags are
supplied by the custom/webgpu/websocket hooks, whenever the registry
returns a tag it is a string from the fixed, finite vocabulary of class
tags. -/
theorem builtin_tags_in_vocabulary (e : AnyError)
    (h : hookFreeAny e = true) (s : String)
    (hs : get_error_class_name e = RegistryResult.tag s) :
    s ∈ classTagVocabulary :=
  get_error_class_name_mem_vocab e h s hs

/-- Witness for C9 (amended): an OS not-found error is hook-free and its
tag is in the vocabulary. -/
theorem builtin_tags_in_vocabulary_witness :
    "NotFound" ∈ classTagVocabulary :=
  builtin_tags_in_vocabulary
    (AnyError.mk none (ConcreteError.io ⟨IoErrorKind.NotFound⟩))
    rfl "NotFound" rfl

/-- Claim C10: the module-resolution and URL-parse classifiers are constant
functions: every variant of either error type classifies as `URIError`. -/
theorem uri_error_constant_classifiers :
    (∀ e : ModuleResolutionError, get_module_resolution_error_class e = "URIError") ∧
    (∀ e : UrlParseError, get_url_parse_error_class e = "URIError") :=
  ⟨fun _ => rfl, fun _ => rfl⟩
